import Mathlib

/-!
# Verification of the data-api-server query proxy (`src/main.py`)

Shallow embedding of the Flask service in `src/main.py`.  The service proxies
query execution to an upstream analytics API.  All HTTP traffic is modelled by
environment records that map each outgoing request of the code (identified by
its position in the control flow: the start POST, the k-th status poll, …) to
the upstream response observed there.  Python dictionaries parsed from JSON
bodies become association lists (`Dict`), Python truthiness is modelled
explicitly, and the process-wide global `application_status` becomes an
explicit state value threaded through the functions that read or write it.

Places where the Python code would raise an uncaught exception (a body that
fails to parse where `.json()` is called without a surrounding `try`) are
outside the scope of the claims; those spots are marked in comments and the
theorems that could otherwise touch them carry parse-success hypotheses.
-/

/-- A parsed JSON value, as produced by `response.json()`. -/
inductive Json where
  | str (s : String)
  | num (n : Int)
  | bool (b : Bool)
  | null
  | arr (elems : List Json)
  | obj (members : List (String × Json))

/-- A JSON object body, i.e. a Python dict: keys in insertion order. -/
abbrev Dict := List (String × Json)

/-- `d.get(k)` on a Python dict (first binding wins, as dict keys are unique). -/
def jget (d : Dict) (k : String) : Option Json := d.lookup k

/-- Python truthiness of a value parsed from JSON (`if x:`). -/
def Json.truthy : Json → Bool
  | .str s => !s.isEmpty
  | .num n => n != 0
  | .bool b => b
  | .null => false
  | .arr l => !l.isEmpty
  | .obj l => !l.isEmpty

/-- Python `v == s` for a string literal `s`: true only when `v` is that string. -/
def Json.isStr : Json → String → Bool
  | .str t, s => t == s
  | _, _ => false

/-- `data.get("status") == s` (`False` when the key is absent or not a string). -/
def statusIs (d : Dict) (s : String) : Bool :=
  match jget d "status" with
  | some v => v.isStr s
  | none => false

/-- Python truthiness of `d.get(k)` (`None` is falsy). -/
def truthyOpt : Option Json → Bool
  | some v => v.truthy
  | none => false

/-- An upstream HTTP response as the code observes it: status code, the result
of `response.json()` when the body parses as a JSON object (`none` models a
body on which `.json()` raises), and `response.text`. -/
structure UpstreamResponse where
  statusCode : Nat
  jsonBody : Option Dict
  text : String

/-- `response.json()` where the source calls it without a `try`; a `none` body
would raise in Python (out of claim scope), modelled as the empty object. -/
def UpstreamResponse.json (r : UpstreamResponse) : Dict := r.jsonBody.getD []

/-- `response.status_code in [200, 201]`, the success test used everywhere. -/
def goodHttp (r : UpstreamResponse) : Bool :=
  r.statusCode == 200 || r.statusCode == 201

/-- `pat in s` on Python strings: `pat` occurs as a contiguous substring. -/
def charListHasSub (pat : List Char) : List Char → Bool
  | [] => pat.isEmpty
  | c :: cs => pat.isPrefixOf (c :: cs) || charListHasSub pat cs

/-- Python's `pat in s` substring test. -/
def pyInStr (pat s : String) : Bool := charListHasSub pat.data s.data

/-- What the guard `"errors" in obj and len(obj["errors"]) > 0 and "detail" in
obj["errors"][0]` followed by `obj["errors"][0]["detail"]` (main.py:152-153,
194, 236) does on a parsed object body. -/
inductive ErrorsGuardOutcome where
  /-- The guard held and `obj["errors"][0]["detail"]` was read. -/
  | found (v : Json)
  /-- The guard was `False` without raising: fall through to the `elif`s. -/
  | fallthrough
  /-- The guard (or the read) raised `TypeError`/`KeyError`, caught by the
  bare `except:`. -/
  | raised

/-- The errors-guard on a parsed object body `d`, shape by shape (keys of a
JSON-parsed dict are strings, so `v[0]` on a dict value raises `KeyError`):
`len()` on a number, boolean or null raises; `"detail" in first` raises on
those scalars, is a substring test on a string first entry and a membership
test on an array first entry — in both of the latter cases a `True` guard
then raises on `first["detail"]`; a non-empty string `errors` never gets past
`"detail" in v[0]` (one character cannot contain `"detail"`). -/
def errorsGuard (d : Dict) : ErrorsGuardOutcome :=
  match jget d "errors" with
  | none => .fallthrough
  | some v =>
    match v with
    | .arr [] => .fallthrough
    | .arr (first :: _) =>
      match first with
      | .obj e =>
        match jget e "detail" with
        | some val => .found val
        | none => .fallthrough
      | .str s => if pyInStr "detail" s then .raised else .fallthrough
      | .arr l => if l.any (fun w => w.isStr "detail") then .raised else .fallthrough
      | _ => .raised
    | .str _ => .fallthrough
    | .obj [] => .fallthrough
    | .obj (_ :: _) => .raised
    | _ => .raised

/-- The errors branch exactly as claim C1's precedence (a) words it: the
`detail` field of the first entry of an `errors` array, absent otherwise. -/
def errorsFirstDetail (d : Dict) : Option Json :=
  match jget d "errors" with
  | some (.arr (Json.obj e :: _)) => jget e "detail"
  | _ => none

/-- The default message of the execution-trigger POST (main.py:148). -/
def exec_post_generic (n : Nat) : Json := .str s!"Request failed with status code {n}"

/-- The default message of the status-polling block (main.py:191). -/
def poll_generic (n : Nat) : Json := .str s!"Failed to check execution status: {n}"

/-- The default message of the results-descriptor block (main.py:233). -/
def results_generic (n : Nat) : Json := .str s!"Failed to get results: {n}"

/-- Error extraction of the execution-trigger POST (main.py:147-162): default
generic message; on a parsed body try the errors-guard, then `detail`,
`message`, `error`.  The bare `except:` catches both a failing `.json()` and
a raising guard; in either case a non-empty `response.text` replaces the
generic default. -/
def extract_error_exec_post (r : UpstreamResponse) : Json :=
  match r.jsonBody with
  | some d =>
    match errorsGuard d with
    | .found v => v
    | .fallthrough =>
      match jget d "detail" with
      | some v => v
      | none =>
        match jget d "message" with
        | some v => v
        | none =>
          match jget d "error" with
          | some v => v
          | none => exec_post_generic r.statusCode
    | .raised => if r.text.isEmpty then exec_post_generic r.statusCode else .str r.text
  | none => if r.text.isEmpty then exec_post_generic r.statusCode else .str r.text

/-- Error extraction of the status-polling block (main.py:191-202): same
shape but with NO top-level `error` branch. -/
def extract_error_poll (r : UpstreamResponse) : Json :=
  match r.jsonBody with
  | some d =>
    match errorsGuard d with
    | .found v => v
    | .fallthrough =>
      match jget d "detail" with
      | some v => v
      | none =>
        match jget d "message" with
        | some v => v
        | none => poll_generic r.statusCode
    | .raised => if r.text.isEmpty then poll_generic r.statusCode else .str r.text
  | none => if r.text.isEmpty then poll_generic r.statusCode else .str r.text

/-- Error extraction of the results-descriptor fetch (main.py:233-244): same
shape as the polling block, again with NO top-level `error` branch. -/
def extract_error_results (r : UpstreamResponse) : Json :=
  match r.jsonBody with
  | some d =>
    match errorsGuard d with
    | .found v => v
    | .fallthrough =>
      match jget d "detail" with
      | some v => v
      | none =>
        match jget d "message" with
        | some v => v
        | none => results_generic r.statusCode
    | .raised => if r.text.isEmpty then results_generic r.statusCode else .str r.text
  | none => if r.text.isEmpty then results_generic r.statusCode else .str r.text

/-- The extraction precedence exactly as claim C1 states it for the polling and
results blocks: (a) `errors[0].detail`, (b) `detail`, (c) `message`, (d)
`error`, (e) the raw body text, (f) the generic message, each branch used only
when all earlier ones are absent. -/
def claimC1_precedence (generic : Nat → Json) (r : UpstreamResponse) : Json :=
  match errorsFirstDetail r.json with
  | some v => v
  | none =>
    match jget r.json "detail" with
    | some v => v
    | none =>
      match jget r.json "message" with
      | some v => v
      | none =>
        match jget r.json "error" with
        | some v => v
        | none => if r.text.isEmpty then generic r.statusCode else .str r.text

/-- The amended precedence for the polling and results blocks: when the
errors-guard finds `errors[0].detail`, that value; when it falls through
cleanly, (b) `detail`, (c) `message`, else the generic message; the raw body
text (when non-empty, else the generic message) is used exactly when the
body does not parse as JSON or the errors-guard itself raises on a malformed
`errors` value; the top-level `error` field is never consulted in these two
blocks. -/
def amended_precedence (generic : Nat → Json) (r : UpstreamResponse) : Json :=
  match r.jsonBody with
  | some d =>
    match errorsGuard d with
    | .found v => v
    | .fallthrough =>
      match jget d "detail" with
      | some v => v
      | none =>
        match jget d "message" with
        | some v => v
        | none => generic r.statusCode
    | .raised => if r.text.isEmpty then generic r.statusCode else .str r.text
  | none => if r.text.isEmpty then generic r.statusCode else .str r.text

/-! ## Configuration constants (main.py:16-18) -/

/-- `APPLICATION_START_TIMEOUT = 300` (main.py:17). -/
def APPLICATION_START_TIMEOUT : Nat := 300

/-- `QUERY_EXECUTION_TIMEOUT = 300` (main.py:18). -/
def QUERY_EXECUTION_TIMEOUT : Nat := 300

/-! ## Application readiness poller (main.py:60-119)

The upstream behaviour is an `AppEnv`: what GET `application/`, POST
`application/start/` and each in-loop GET `application/` return, for a given
`x-api-key` credential.  The global `application_status` (main.py:14) is
threaded explicitly: each function takes the flag value on entry and returns
the flag value on exit.  Each outgoing call is also recorded in a trace. -/

/-- One outgoing upstream call of the readiness / query-creation flow. -/
inductive UpCall where
  | confirmGet (key : String)
  | startPost (key : String)
  | pollGet (key : String) (attempt : Nat)
  | createQueryPost (key : String) (sql : Json)

/-- Upstream behaviour seen by `ensure_application_running`, by credential. -/
structure AppEnv where
  confirmResp : String → UpstreamResponse
  startResp : String → UpstreamResponse
  pollResp : String → Nat → UpstreamResponse

/-- `[s, s+1, ..., s+n-1]`: the attempt numbers of `n` consecutive polls. -/
def consecFrom (s : Nat) : Nat → List Nat
  | 0 => []
  | n + 1 => s :: consecFrom (s + 1) n

/-- The `while data.get("status") != "active" and retry_count < max_retries`
loop (main.py:99-111), by remaining fuel.  `data` is the last parsed body,
`attempt` the index of the next in-loop GET.  Returns `.error ()` when a poll
answers outside {200, 201} (the `return False` at main.py:109), else `.ok`
with the final body, together with the number of in-loop GETs issued. -/
def appPollLoop (env : AppEnv) (key : String) : Dict → Nat → Nat → Except Unit Dict × Nat
  | data, _, 0 => (.ok data, 0)
  | data, attempt, fuel + 1 =>
    if statusIs data "active" then (.ok data, 0)
    else
      let r := env.pollResp key attempt
      if goodHttp r then
        let out := appPollLoop env key r.json (attempt + 1) fuel
        (out.1, out.2 + 1)
      else (.error (), 1)

/-- The whole polling phase of one `ensure_application_running` call: the
loop of main.py:99-111 entered on the start POST's parsed body with the full
fuel `300 // 5` and the first in-loop GET numbered 1. -/
def app_poll_run (env : AppEnv) (api_key : String) : Except Unit Dict × Nat :=
  appPollLoop env api_key (env.startResp api_key).json 1 (APPLICATION_START_TIMEOUT / 5)

/-- `ensure_application_running` from the start POST on (main.py:84-119).
`flag1` is the value of the global `application_status` at this point (already
reset to `None` by main.py:82 when the confirmation check failed). -/
def ensure_start_phase (env : AppEnv) (api_key : String) (flag1 : Option String)
    (tr0 : List UpCall) : Bool × Option String × List UpCall :=
  let r := env.startResp api_key
  let tr1 := tr0 ++ [UpCall.startPost api_key]
  if goodHttp r then
    -- main.py:91: `data = response.json()`; then poll up to 300 // 5 times
    let out := app_poll_run env api_key
    let tr2 := tr1 ++ (consecFrom 1 out.2).map (UpCall.pollGet api_key)
    match out.1 with
    | .error _ => (false, flag1, tr2)
    | .ok data =>
      if statusIs data "active" then (true, some "active", tr2)
      else (false, flag1, tr2)
  else (false, flag1, tr1)

/-- `ensure_application_running(api_key)` (main.py:60-119).  Takes the global
`application_status` on entry, returns `(result, application_status on exit,
upstream calls issued)`.  The confirmation GET's body is read with `.json()`
without a status-code check (main.py:78-79). -/
def ensure_application_running (env : AppEnv) (api_key : String)
    (flag0 : Option String) : Bool × Option String × List UpCall :=
  if flag0 = some "active" then
    let data := (env.confirmResp api_key).json
    if statusIs data "active" then (true, flag0, [UpCall.confirmGet api_key])
    else
      -- main.py:82: `application_status = None  # Reset if not active`
      ensure_start_phase env api_key none [UpCall.confirmGet api_key]
  else ensure_start_phase env api_key flag0 []

/-- The initial value of the global `application_status` (main.py:14). -/
def application_status_init : Option String := none

/-- The flag value after a sequence of `ensure_application_running` calls,
each with its own upstream behaviour and credential. -/
def run_calls (calls : List (AppEnv × String)) (flag : Option String) : Option String :=
  calls.foldl (fun f c => (ensure_application_running c.1 c.2 f).2.1) flag

/-! ## Query execution (main.py:34-57, 122-260) -/

/-- The response to `requests.get(presigned_url)` (main.py:45): status code and
raw bytes of the downloaded file. -/
structure DownloadResponse where
  statusCode : Nat
  content : List Nat

/-- Upstream behaviour seen by one `execute_query(query_slug, page_number,
api_key)` call.  The slug, page and credential of the call select this
environment; the `statusResp` index is the GET's position (0 = the initial
unchecked GET at main.py:173, k ≥ 1 = the k-th in-loop poll).  `decode` is
`pd.read_parquet` (an external library, taken as an uninterpreted total
function on the downloaded bytes). -/
structure ExecEnv where
  postResp : UpstreamResponse
  statusResp : Nat → UpstreamResponse
  resultsResp : UpstreamResponse
  download : Option Json → DownloadResponse
  decode : List Nat → List Dict

/-- A decoded result table: the rows of the DataFrame, each a column→value
object (the form `df.to_json(orient="records")` serialises). -/
abbrev Table := List Dict

/-- `process_parquet_in_memory(presigned_url)` (main.py:34-57): GET the URL;
on HTTP 200 decode the body into a DataFrame, otherwise return `None`. -/
def process_parquet_in_memory (env : ExecEnv) (presigned_url : Option Json) : Option Table :=
  let response := env.download presigned_url
  if response.statusCode == 200 then some (env.decode response.content)
  else none

/-- The `while execution.get("status") not in ["complete", "failed"] and
retry_count < max_retries` loop (main.py:181-207), by remaining fuel.
`.error msg` is the early return at main.py:205 when a poll answers outside
{200, 201}; `.ok` carries the final parsed execution object. -/
def execPollLoop (env : ExecEnv) : Dict → Nat → Nat → Except Json Dict
  | execution, _, 0 => .ok execution
  | execution, attempt, fuel + 1 =>
    if statusIs execution "complete" || statusIs execution "failed" then .ok execution
    else
      let r := env.statusResp attempt
      if goodHttp r then execPollLoop env r.json (attempt + 1) fuel
      else .error (extract_error_poll r)

/-- The terminal-failure message (main.py:209-217): the execution object's
`error` field, else its `message` field, else `"Query execution failed"`. -/
def exec_failed_message (execution : Dict) : Json :=
  match jget execution "error" with
  | some v => v
  | none =>
    match jget execution "message" with
    | some v => v
    | none => .str "Query execution failed"

/-- The results-descriptor fetch and parquet decoding (main.py:225-260).  The
`df.empty` sub-branch of main.py:252-258 only logs; every non-`None` DataFrame
(zero rows included) falls through to `return df, None`. -/
def get_results_phase (env : ExecEnv) : Option Table × Option Json :=
  let r := env.resultsResp
  if goodHttp r then
    let results := r.json
    match process_parquet_in_memory env (jget results "presigned_url") with
    | none => (none, some (.str "Failed to process parquet file"))
    | some df => (some df, none)
  else (none, some (extract_error_results r))

/-- `execute_query(query_slug, page_number, api_key)` (main.py:122-260):
trigger the execution, read the initial status (main.py:173-174, `.json()`
without a status-code check), poll up to 300 // 2 times, then dispatch on the
terminal status and fetch the results. -/
def execute_query (env : ExecEnv) : Option Table × Option Json :=
  if goodHttp env.postResp then
    let execution := (env.statusResp 0).json
    match execPollLoop env execution 1 (QUERY_EXECUTION_TIMEOUT / 2) with
    | .error e => (none, some e)
    | .ok ex =>
      if statusIs ex "failed" then (none, some (exec_failed_message ex))
      else
        if statusIs ex "complete" then get_results_phase env
        else (none, some (.str s!"Query execution timed out after {QUERY_EXECUTION_TIMEOUT}s"))
  else (none, some (extract_error_exec_post env.postResp))

/-! ## Query creation and SQL synthesis (main.py:263-342) -/

/-- Upstream behaviour of the query-creation POST (main.py:278-282), by
credential and posted SQL value. -/
structure CreateEnv where
  createResp : String → Json → UpstreamResponse

/-- `create_query(sql_query, api_key)` (main.py:263-293): on a non-{200,201}
status the failure is only logged and `None` is returned — no error message is
carried; on success the result is `query.get("slug")`. -/
def create_query (env : CreateEnv) (sql_query : Json) (api_key : String) : Option Json :=
  let response := env.createResp api_key sql_query
  if goodHttp response then jget response.json "slug"
  else none

/-- `build_sql_query(layer, table, limit=None)` (main.py:296-319). -/
def build_sql_query (layer table : String) (limit : Option Int) : String :=
  let quoted_layer := "\"" ++ layer ++ "\""
  let quoted_table := "\"" ++ table ++ "\""
  let sql_query := "SELECT\n\t*\nFROM\n\t" ++ quoted_layer ++ "." ++ quoted_table
  match limit with
  | none => sql_query
  | some n => sql_query ++ ("\nLIMIT " ++ toString n)

/-- `create_query_and_return_slug(sql_query, api_key)` (main.py:322-342):
ensure the application is running, then create the query; `if not query_slug:`
is a truthiness test, so a falsy slug (absent, `null`, `""`, …) also yields
`"Failed to create query"`. -/
def create_query_and_return_slug (appEnv : AppEnv) (createEnv : CreateEnv)
    (sql_query : Json) (api_key : String) (flag0 : Option String) :
    (Option Json × Option String) × Option String × List UpCall :=
  let ens := ensure_application_running appEnv api_key flag0
  if ens.1 then
    let query_slug := create_query createEnv sql_query api_key
    let tr := ens.2.2 ++ [UpCall.createQueryPost api_key sql_query]
    match query_slug with
    | some v =>
      if v.truthy then ((some v, none), ens.2.1, tr)
      else ((none, some "Failed to create query"), ens.2.1, tr)
    | none => ((none, some "Failed to create query"), ens.2.1, tr)
  else ((none, some "Failed to start application"), ens.2.1, ens.2.2)

/-! ## HTTP surface (main.py:22-31, 345-466) -/

/-- Python `str(x)` as used by the f-strings of `build_sql_query` when the
caller passed a non-string JSON value.  Faithful on scalar values; container
values (which Python renders with repr-style elements) are approximated —
no claim exercises them. -/
def pyStr : Json → String
  | .str s => s
  | .num n => toString n
  | .bool b => if b then "True" else "False"
  | .null => "None"
  | .arr _ => "[...]"
  | .obj _ => "\x7b...\x7d"

/-- Python `int(x)` on a value parsed from JSON, `none` when `int()` raises
`ValueError`/`TypeError` (main.py:393-398).  String parsing is approximated by
`String.toInt?`. -/
def pyInt : Json → Option Int
  | .num n => some n
  | .bool b => some (if b then 1 else 0)
  | .str s => s.toInt?
  | _ => none

/-- `{"error": msg}` as a response body. -/
def errBody (msg : String) : Dict := [("error", .str msg)]

/-- `jsonify({"error": error})` where `error` is an optional Python string. -/
def optStrJson : Option String → Json
  | some s => .str s
  | none => .null

/-- The tail of `create_query_endpoint` once a SQL value is fixed
(main.py:403-418): create the query and shape the 500 / 200 response. -/
def create_endpoint_finish (appEnv : AppEnv) (createEnv : CreateEnv)
    (api_key : String) (sql_query : Json) (flag0 : Option String) :
    (Nat × Dict) × Option String × List UpCall :=
  let out := create_query_and_return_slug appEnv createEnv sql_query api_key flag0
  match out.1.1 with
  | none => ((500, [("error", optStrJson out.1.2)]), out.2.1, out.2.2)
  | some slug =>
    ((200, [("query_slug", slug), ("sql_query", sql_query),
            ("status", .str "success"), ("message", .str "Query created successfully")]),
      out.2.1, out.2.2)

/-- The layer/table/limit branch of `create_query_endpoint` (main.py:379-401),
entered when `data.get("sql_query")` is falsy. -/
def create_endpoint_table_mode (appEnv : AppEnv) (createEnv : CreateEnv)
    (api_key : String) (d : Dict) (flag0 : Option String) :
    (Nat × Dict) × Option String × List UpCall :=
  let layer := jget d "layer"
  let table := jget d "table"
  -- `data.get("limit")` is `None` both when the key is absent and when its
  -- value is JSON null, and only a non-`None` value is validated (main.py:392)
  let limit : Option Json :=
    match jget d "limit" with
    | some .null => none
    | x => x
  if truthyOpt layer then
    if truthyOpt table then
      match limit with
      | none =>
        create_endpoint_finish appEnv createEnv api_key
          (.str (build_sql_query (pyStr (layer.getD .null)) (pyStr (table.getD .null)) none)) flag0
      | some lv =>
        match pyInt lv with
        | none => ((400, errBody "Limit must be a valid integer"), flag0, [])
        | some n =>
          if n ≤ 0 then ((400, errBody "Limit must be a positive integer"), flag0, [])
          else
            create_endpoint_finish appEnv createEnv api_key
              (.str (build_sql_query (pyStr (layer.getD .null)) (pyStr (table.getD .null)) (some n))) flag0
    else ((400, errBody "Missing required parameter 'table' when 'sql_query' is not provided"), flag0, [])
  else ((400, errBody "Missing required parameter 'layer' when 'sql_query' is not provided"), flag0, [])

/-- The body of the `POST /api/queries` view after authentication
(main.py:345-418).  `data` is `request.json` (`none`: no JSON body); `if not
data:` also rejects an empty object; `if sql_query:` is a truthiness test. -/
def create_query_endpoint (appEnv : AppEnv) (createEnv : CreateEnv)
    (api_key : String) (data : Option Dict) (flag0 : Option String) :
    (Nat × Dict) × Option String × List UpCall :=
  match data with
  | none => ((400, errBody "No JSON data provided"), flag0, [])
  | some d =>
    if d.isEmpty then ((400, errBody "No JSON data provided"), flag0, [])
    else
      match jget d "sql_query" with
      | some v =>
        if v.truthy then
          let disallowed_params := ["layer", "table", "limit"].filter (fun p => (jget d p).isSome)
          if disallowed_params.isEmpty then
            create_endpoint_finish appEnv createEnv api_key v flag0
          else
            ((400, errBody ("When 'sql_query' is provided, these parameters are not allowed: "
                ++ String.intercalate ", " disallowed_params)), flag0, [])
        else create_endpoint_table_mode appEnv createEnv api_key d flag0
      | none => create_endpoint_table_mode appEnv createEnv api_key d flag0

/-- `int(request.args.get("page_number", 1))` (main.py:427): the query-string
value if present (parse failure raises `ValueError`), else the default 1. -/
def parse_page_number : Option String → Option Int
  | none => some 1
  | some s => s.toInt?

/-- `df.to_json(orient="records", date_format="iso")` parsed back: the rows as
an array of objects (dates already rendered as ISO strings inside `Json`). -/
def df_to_json_records (df : Table) : Json := .arr (df.map Json.obj)

/-- The body of the `GET /api/queries/<slug>/results` view after
authentication (main.py:421-461). -/
def execute_query_endpoint (appEnv : AppEnv) (env : ExecEnv) (api_key slug : String)
    (pageArg : Option String) (flag0 : Option String) : (Nat × Dict) × Option String :=
  match parse_page_number pageArg with
  | none => ((400, errBody "Page number must be a valid integer"), flag0)
  | some page_number =>
    if page_number < 1 then ((400, errBody "Page number must be a positive integer"), flag0)
    else
      let ens := ensure_application_running appEnv api_key flag0
      if ens.1 then
        match execute_query env with
        | (some df, _) =>
          ((200, [("query_slug", .str slug), ("page", .num page_number),
                  ("data", df_to_json_records df)]), ens.2.1)
        | (none, err) =>
          ((500, [("error", .str "Query execution failed"), ("query_slug", .str slug),
                  ("page_number", .num page_number), ("details", err.getD .null)]), ens.2.1)
      else ((500, errBody "Failed to start application"), ens.2.1)

/-- The 401 body of `require_api_key` (main.py:27). -/
def missing_api_key_body : Dict :=
  [("error", .str "Missing API key. Please provide 'x-api-key' header")]

/-- The `require_api_key` decorator's test (main.py:22-31): `g.api_key` is
bound and the view runs only when the `x-api-key` header is present and
truthy (a non-empty string). -/
def require_api_key_check (hdr : Option String) : Option String :=
  match hdr with
  | none => none
  | some api_key => if api_key.isEmpty then none else some api_key

/-- `POST /api/queries` with the decorator applied (main.py:345-347). -/
def create_query_route (appEnv : AppEnv) (createEnv : CreateEnv) (hdr : Option String)
    (data : Option Dict) (flag0 : Option String) : (Nat × Dict) × Option String × List UpCall :=
  match require_api_key_check hdr with
  | none => ((401, missing_api_key_body), flag0, [])
  | some api_key => create_query_endpoint appEnv createEnv api_key data flag0

/-- `GET /api/queries/<slug>/results` with the decorator applied
(main.py:421-423). -/
def results_route (appEnv : AppEnv) (env : ExecEnv) (hdr : Option String) (slug : String)
    (pageArg : Option String) (flag0 : Option String) : (Nat × Dict) × Option String :=
  match require_api_key_check hdr with
  | none => ((401, missing_api_key_body), flag0)
  | some api_key => execute_query_endpoint appEnv env api_key slug pageArg flag0

/-! ## Concrete instances used by counterexamples and witnesses -/

/-- A polling response whose parsed body carries only a top-level `error`. -/
def exPollErrorResp : UpstreamResponse :=
  ⟨500, some [("error", .str "boom")], "\x7b\"error\": \"boom\"\x7d"⟩

/-- A 200 status poll whose body reports `"status": "pending"` forever. -/
def exPendingResp : UpstreamResponse := ⟨200, some [("status", .str "pending")], ""⟩

/-- An execution whose status polls never leave `"pending"`. -/
def exTimeoutEnv : ExecEnv :=
  { postResp := ⟨201, some [("id", .num 7)], ""⟩
    statusResp := fun _ => exPendingResp
    resultsResp := ⟨200, some [], ""⟩
    download := fun _ => ⟨200, []⟩
    decode := fun _ => [] }

/-- An execution that completes at once and whose result file decodes to a
zero-row table. -/
def exEmptyResultEnv : ExecEnv :=
  { postResp := ⟨201, some [("id", .num 1)], ""⟩
    statusResp := fun _ => ⟨200, some [("status", .str "complete")], ""⟩
    resultsResp := ⟨200, some [("presigned_url", .str "https://files/p.parquet")], ""⟩
    download := fun _ => ⟨200, []⟩
    decode := fun _ => [] }

/-- An upstream for which the application is active on every check. -/
def exActiveAppEnv : AppEnv :=
  { confirmResp := fun _ => ⟨200, some [("status", .str "active")], ""⟩
    startResp := fun _ => ⟨200, some [("status", .str "active")], ""⟩
    pollResp := fun _ _ => ⟨200, some [("status", .str "active")], ""⟩ }

/-- An upstream whose application reports `"pending"` to the start POST and
`"active"` to every in-loop poll. -/
def exStartsOnPollEnv : AppEnv :=
  { confirmResp := fun _ => ⟨200, some [("status", .str "inactive")], ""⟩
    startResp := fun _ => ⟨201, some [("status", .str "pending")], ""⟩
    pollResp := fun _ _ => ⟨200, some [("status", .str "active")], ""⟩ }

/-- A creation POST refused with 503 and an upstream `detail` payload. -/
def exCreateBadEnv : CreateEnv :=
  { createResp := fun _ _ =>
      ⟨503, some [("detail", .str "upstream rejected the query")],
        "\x7b\"detail\": \"upstream rejected the query\"\x7d"⟩ }

/-- A creation POST answered 201 with a slug. -/
def exCreateGoodEnv : CreateEnv :=
  { createResp := fun _ _ => ⟨201, some [("slug", .str "q-1")], ""⟩ }

/-! ## Theorems -/

/-- C1 (amended): for every upstream response observed by `execute_query`
during execution-status polling or during the results-descriptor fetch with
status outside {200, 201}, the error message follows this precedence: the
`detail` field of the first entry of the `errors` array when the guard finds
it; on a clean fall-through, top-level `detail`, then top-level `message`,
then the generic message containing the status code; the raw body text (when
non-empty, else the generic message) is used exactly when the body fails to
parse as JSON or the errors-guard itself raises on a malformed `errors`
value; the top-level `error` field is not consulted in these two blocks.  In
particular the parseable body with `errors` set to `[5]` yields the raw body
text, not the generic message and not its `message` field. -/
theorem poll_and_results_error_precedence (r : UpstreamResponse) :
    (extract_error_poll r = amended_precedence poll_generic r ∧
      extract_error_results r = amended_precedence results_generic r) ∧
    extract_error_poll
        ⟨500, some [("errors", .arr [.num 5]), ("message", .str "m")],
          "\x7b\"errors\": [5]\x7d"⟩
      = .str "\x7b\"errors\": [5]\x7d" := by
  refine ⟨?_, rfl⟩
  cases r with
  | mk code body text => cases body <;> exact ⟨rfl, rfl⟩

/-- C1 (counterexample): a polling response of status 500 whose body is the
object `\x7b"error": "boom"\x7d` yields the generic message, not the `error`
field that the claimed precedence (branch (d)) would extract. -/
theorem poll_error_key_skipped_cx :
    extract_error_poll exPollErrorResp = .str "Failed to check execution status: 500" ∧
    claimC1_precedence poll_generic exPollErrorResp = .str "boom" ∧
    extract_error_poll exPollErrorResp ≠ claimC1_precedence poll_generic exPollErrorResp := by
  refine ⟨rfl, rfl, ?_⟩
  intro h
  have h2 : Json.str "Failed to check execution status: 500" = Json.str "boom" := h
  injection h2 with h3
  exact absurd h3 (by decide)

/-- Pure reassociation of the five-part concatenation `build_sql_query`
produces, with all literals abstracted so that no literal folding interferes. -/
theorem append_regroup (A q d L T : String) :
    A ++ (q ++ L ++ q) ++ d ++ (q ++ T ++ q)
      = ((A ++ q) ++ L) ++ ((q ++ d ++ q) ++ (T ++ q)) := by
  simp [String.append_assoc]

/-- C7: `build_sql_query L T None` returns exactly
`SELECT\n\t*\nFROM\n\t"L"."T"` with both identifiers delimited by double
quotes verbatim, a limit `n` appends `\nLIMIT n` to that same string, and the
("raw", "orders") instances are as stated. -/
theorem build_sql_query_correct :
    (∀ L T : String, build_sql_query L T none
        = "SELECT\n\t*\nFROM\n\t\"" ++ L ++ "\".\"" ++ T ++ "\"") ∧
    (∀ (L T : String) (n : Int), build_sql_query L T (some n)
        = build_sql_query L T none ++ "\nLIMIT " ++ toString n) ∧
    build_sql_query "raw" "orders" none = "SELECT\n\t*\nFROM\n\t\"raw\".\"orders\"" ∧
    build_sql_query "raw" "orders" (some 10)
        = "SELECT\n\t*\nFROM\n\t\"raw\".\"orders\"\nLIMIT 10" := by
  refine ⟨?_, ?_, rfl, rfl⟩
  · intro L T
    show "SELECT\n\t*\nFROM\n\t" ++ ("\"" ++ L ++ "\"") ++ "." ++ ("\"" ++ T ++ "\"")
        = "SELECT\n\t*\nFROM\n\t\"" ++ L ++ "\".\"" ++ T ++ "\""
    rw [append_regroup]
    show ("SELECT\n\t*\nFROM\n\t\"" ++ L) ++ ("\".\"" ++ (T ++ "\""))
        = "SELECT\n\t*\nFROM\n\t\"" ++ L ++ "\".\"" ++ T ++ "\""
    simp [String.append_assoc]
  · intro L T n
    rw [String.append_assoc]
    rfl

/-- C10: a request to either authenticated route whose `x-api-key` header is
the empty string gets the same 401 missing-API-key body as a request with no
header at all, and the view body only ever runs with a non-empty credential. -/
theorem empty_api_key_rejected :
    (∀ appEnv createEnv data flag0,
        create_query_route appEnv createEnv (some "") data flag0
          = ((401, missing_api_key_body), flag0, []) ∧
        create_query_route appEnv createEnv none data flag0
          = ((401, missing_api_key_body), flag0, [])) ∧
    (∀ appEnv env slug pageArg flag0,
        results_route appEnv env (some "") slug pageArg flag0
          = ((401, missing_api_key_body), flag0) ∧
        results_route appEnv env none slug pageArg flag0
          = ((401, missing_api_key_body), flag0)) ∧
    (∀ hdr key, require_api_key_check hdr = some key → key ≠ "") := by
  refine ⟨fun _ _ _ _ => ⟨rfl, rfl⟩, fun _ _ _ _ _ => ⟨rfl, rfl⟩, ?_⟩
  intro hdr key h
  cases hdr with
  | none => exact absurd h (by simp [require_api_key_check])
  | some s =>
    simp only [require_api_key_check] at h
    by_cases hs : s.isEmpty
    · rw [if_pos hs] at h
      exact absurd h (by simp)
    · rw [if_neg hs] at h
      injection h with h2
      subst h2
      intro hk
      rw [hk] at hs
      exact hs rfl

/-- If the current execution object is non-terminal and every poll within the
remaining fuel answers 200/201 with a parsed non-terminal body, the loop
exhausts its fuel and ends `.ok` with a non-terminal body. -/
theorem execPollLoop_nonterminal (env : ExecEnv) :
    ∀ (fuel attempt : Nat) (ex : Dict),
      statusIs ex "complete" = false → statusIs ex "failed" = false →
      (∀ k, attempt ≤ k → k < attempt + fuel →
        goodHttp (env.statusResp k) = true ∧
        statusIs (env.statusResp k).json "complete" = false ∧
        statusIs (env.statusResp k).json "failed" = false) →
      ∃ d, execPollLoop env ex attempt fuel = .ok d ∧
        statusIs d "complete" = false ∧ statusIs d "failed" = false
  | 0, _, ex, hc, hf, _ => ⟨ex, rfl, hc, hf⟩
  | fuel + 1, attempt, ex, hc, hf, hp => by
    have hk := hp attempt (Nat.le_refl _) (by omega)
    have hstep : execPollLoop env ex attempt (fuel + 1)
        = execPollLoop env (env.statusResp attempt).json (attempt + 1) fuel := by
      simp [execPollLoop, hc, hf, hk.1]
    rw [hstep]
    exact execPollLoop_nonterminal env fuel (attempt + 1) _ hk.2.1 hk.2.2
      (fun k h1 h2 => hp k (by omega) (by omega))

/-- C3: if the execution-trigger POST succeeds, every status poll that the
code could issue answers HTTP 200/201 with a parseable body, and no observed
body ever reports `"complete"` or `"failed"`, then `execute_query` returns no
table and exactly the message `"Query execution timed out after 300s"`.
(The parse hypothesis keeps the statement inside the model's faithful region:
an unparseable body on the success path would raise in Python.) -/
theorem execute_query_times_out (env : ExecEnv)
    (hpost : goodHttp env.postResp = true)
    (hparse : ∀ i, i ≤ QUERY_EXECUTION_TIMEOUT / 2 → (env.statusResp i).jsonBody.isSome = true)
    (hgood : ∀ i, 1 ≤ i → i ≤ QUERY_EXECUTION_TIMEOUT / 2 → goodHttp (env.statusResp i) = true)
    (hnt : ∀ i, i ≤ QUERY_EXECUTION_TIMEOUT / 2 →
        statusIs (env.statusResp i).json "complete" = false ∧
        statusIs (env.statusResp i).json "failed" = false) :
    execute_query env = (none, some (.str "Query execution timed out after 300s")) := by
  obtain ⟨d, hloop, hc, hf⟩ := execPollLoop_nonterminal env (QUERY_EXECUTION_TIMEOUT / 2) 1
    (env.statusResp 0).json (hnt 0 (by omega)).1 (hnt 0 (by omega)).2
    (fun k h1 h2 => ⟨hgood k h1 (by omega), (hnt k (by omega)).1, (hnt k (by omega)).2⟩)
  simp only [execute_query, hpost, hloop, hc, hf, if_true, if_false]
  rfl

/-- C3 (witness): a concrete execution whose polls all answer 200 with
`"status": "pending"` times out with the exact message. -/
theorem execute_query_times_out_witness :
    goodHttp exTimeoutEnv.postResp = true ∧
    execute_query exTimeoutEnv = (none, some (.str "Query execution timed out after 300s")) :=
  ⟨rfl, execute_query_times_out exTimeoutEnv rfl (fun _ _ => rfl) (fun _ _ _ => rfl)
    (fun _ _ => ⟨rfl, rfl⟩)⟩

/-- A body whose `status` field equals `"complete"` does not equal
`"failed"`. -/
theorem statusIs_complete_not_failed (d : Dict) (h : statusIs d "complete" = true) :
    statusIs d "failed" = false := by
  revert h
  unfold statusIs
  cases jget d "status" with
  | none => intro h; exact absurd h (by simp)
  | some v =>
    cases v <;> simp [Json.isStr]
    intro h
    subst h
    decide

/-- The readiness loop exits at once, issuing no poll, when the body in hand
already reports `"active"`. -/
theorem appPollLoop_exit_active (env : AppEnv) (key : String) (data : Dict)
    (attempt fuel : Nat) (h : statusIs data "active" = true) :
    appPollLoop env key data attempt fuel = (.ok data, 0) := by
  cases fuel with
  | zero => rfl
  | succ fuel => simp [appPollLoop, h]

/-- One step of the readiness loop on a non-active body and a 200/201 poll. -/
theorem appPollLoop_step_good (env : AppEnv) (key : String) (data : Dict)
    (attempt fuel : Nat) (ha : statusIs data "active" = false)
    (hg : goodHttp (env.pollResp key attempt) = true) :
    appPollLoop env key data attempt (fuel + 1)
      = ((appPollLoop env key (env.pollResp key attempt).json (attempt + 1) fuel).1,
         (appPollLoop env key (env.pollResp key attempt).json (attempt + 1) fuel).2 + 1) := by
  simp [appPollLoop, ha, hg]

/-- One step of the readiness loop on a non-active body and a failing poll. -/
theorem appPollLoop_step_bad (env : AppEnv) (key : String) (data : Dict)
    (attempt fuel : Nat) (ha : statusIs data "active" = false)
    (hg : goodHttp (env.pollResp key attempt) = false) :
    appPollLoop env key data attempt (fuel + 1) = (.error (), 1) := by
  simp [appPollLoop, ha, hg]

/-- The readiness loop issues at most `fuel` polls. -/
theorem appPollLoop_count_le (env : AppEnv) (key : String) :
    ∀ (fuel : Nat) (data : Dict) (attempt : Nat),
      (appPollLoop env key data attempt fuel).2 ≤ fuel
  | 0, _, _ => Nat.le_refl 0
  | fuel + 1, data, attempt => by
    by_cases ha : statusIs data "active" = true
    · rw [appPollLoop_exit_active env key data attempt _ ha]
      exact Nat.zero_le _
    · rw [Bool.not_eq_true] at ha
      by_cases hg : goodHttp (env.pollResp key attempt) = true
      · rw [appPollLoop_step_good env key data attempt fuel ha hg]
        exact Nat.succ_le_succ (appPollLoop_count_le env key fuel _ _)
      · rw [Bool.not_eq_true] at hg
        rw [appPollLoop_step_bad env key data attempt fuel ha hg]
        omega

/-- Every poll that was followed by a further poll answered 200/201 with a
body not reporting `"active"` (the loop re-polls only in that case). -/
theorem appPollLoop_mid (env : AppEnv) (key : String) :
    ∀ (fuel : Nat) (data : Dict) (attempt k : Nat), attempt ≤ k →
      k + 2 ≤ attempt + (appPollLoop env key data attempt fuel).2 →
      goodHttp (env.pollResp key k) = true ∧
        statusIs (env.pollResp key k).json "active" = false
  | 0, data, attempt, k, hk, h2 => by
    have h0 : (appPollLoop env key data attempt 0).2 = 0 := rfl
    omega
  | fuel + 1, data, attempt, k, hk, h2 => by
    by_cases ha : statusIs data "active" = true
    · rw [appPollLoop_exit_active env key data attempt _ ha] at h2
      omega
    · rw [Bool.not_eq_true] at ha
      by_cases hg : goodHttp (env.pollResp key attempt) = true
      · rw [appPollLoop_step_good env key data attempt fuel ha hg] at h2
        rcases Nat.eq_or_lt_of_le hk with heq | hlt
        · subst heq
          refine ⟨hg, ?_⟩
          by_cases hb : statusIs (env.pollResp key attempt).json "active" = true
          · rw [appPollLoop_exit_active env key
              (env.pollResp key attempt).json (attempt + 1) fuel hb] at h2
            omega
          · rw [Bool.not_eq_true] at hb
            exact hb
        · exact appPollLoop_mid env key fuel (env.pollResp key attempt).json
            (attempt + 1) k hlt (by omega)
      · rw [Bool.not_eq_true] at hg
        rw [appPollLoop_step_bad env key data attempt fuel ha hg] at h2
        omega

/-- When the readiness loop ends `.ok`, every issued poll answered 200/201. -/
theorem appPollLoop_ok_good (env : AppEnv) (key : String) :
    ∀ (fuel : Nat) (data : Dict) (attempt : Nat) (d : Dict),
      (appPollLoop env key data attempt fuel).1 = .ok d →
      ∀ k, attempt ≤ k → k + 1 ≤ attempt + (appPollLoop env key data attempt fuel).2 →
        goodHttp (env.pollResp key k) = true
  | 0, data, attempt, d, _, k, hk, h1 => by
    have h0 : (appPollLoop env key data attempt 0).2 = 0 := rfl
    omega
  | fuel + 1, data, attempt, d, hd, k, hk, h1 => by
    by_cases ha : statusIs data "active" = true
    · rw [appPollLoop_exit_active env key data attempt _ ha] at h1
      omega
    · rw [Bool.not_eq_true] at ha
      by_cases hg : goodHttp (env.pollResp key attempt) = true
      · rw [appPollLoop_step_good env key data attempt fuel ha hg] at hd h1
        rcases Nat.eq_or_lt_of_le hk with heq | hlt
        · subst heq
          exact hg
        · exact appPollLoop_ok_good env key fuel _ (attempt + 1) d hd k hlt (by omega)
      · rw [Bool.not_eq_true] at hg
        rw [appPollLoop_step_bad env key data attempt fuel ha hg] at hd
        exact absurd hd (by simp)

/-- When the readiness loop ends `.error`, at least one poll was issued and
the last issued poll answered outside {200, 201}. -/
theorem appPollLoop_error_last (env : AppEnv) (key : String) :
    ∀ (fuel : Nat) (data : Dict) (attempt : Nat) (e : Unit),
      (appPollLoop env key data attempt fuel).1 = .error e →
      1 ≤ (appPollLoop env key data attempt fuel).2 ∧
      goodHttp (env.pollResp key
        (attempt + (appPollLoop env key data attempt fuel).2 - 1)) = false
  | 0, data, attempt, e, he => by
    exact absurd he (by simp [appPollLoop])
  | fuel + 1, data, attempt, e, he => by
    by_cases ha : statusIs data "active" = true
    · rw [appPollLoop_exit_active env key data attempt _ ha] at he
      exact absurd he (by simp)
    · rw [Bool.not_eq_true] at ha
      by_cases hg : goodHttp (env.pollResp key attempt) = true
      · rw [appPollLoop_step_good env key data attempt fuel ha hg] at he ⊢
        obtain ⟨h1, hlast⟩ := appPollLoop_error_last env key fuel _ (attempt + 1) e he
        refine ⟨by omega, ?_⟩
        have hidx : attempt
              + ((appPollLoop env key (env.pollResp key attempt).json (attempt + 1) fuel).2 + 1) - 1
            = attempt + 1
              + (appPollLoop env key (env.pollResp key attempt).json (attempt + 1) fuel).2 - 1 := by
          omega
        rw [hidx]
        exact hlast
      · rw [Bool.not_eq_true] at hg
        rw [appPollLoop_step_bad env key data attempt fuel ha hg]
        exact ⟨Nat.le_refl 1, by simpa using hg⟩

/-- The `.ok` body of the readiness loop is the body the loop started on or
the parsed body of one of the issued polls. -/
theorem appPollLoop_ok_src (env : AppEnv) (key : String) :
    ∀ (fuel : Nat) (data : Dict) (attempt : Nat) (d : Dict),
      (appPollLoop env key data attempt fuel).1 = .ok d →
      d = data ∨ ∃ k, attempt ≤ k ∧ d = (env.pollResp key k).json
  | 0, data, attempt, d, hd => by
    have h0 : (appPollLoop env key data attempt 0).1 = .ok data := rfl
    rw [h0] at hd
    exact Or.inl (by cases hd; rfl)
  | fuel + 1, data, attempt, d, hd => by
    by_cases ha : statusIs data "active" = true
    · rw [appPollLoop_exit_active env key data attempt _ ha] at hd
      exact Or.inl (by cases hd; rfl)
    · rw [Bool.not_eq_true] at ha
      by_cases hg : goodHttp (env.pollResp key attempt) = true
      · rw [appPollLoop_step_good env key data attempt fuel ha hg] at hd
        rcases appPollLoop_ok_src env key fuel _ (attempt + 1) d hd with h | ⟨k, hk, h⟩
        · exact Or.inr ⟨attempt, Nat.le_refl _, h⟩
        · exact Or.inr ⟨k, by omega, h⟩
      · rw [Bool.not_eq_true] at hg
        rw [appPollLoop_step_bad env key data attempt fuel ha hg] at hd
        exact absurd hd (by simp)

/-- If the start-and-poll phase reports success, the flag it leaves behind is
`some "active"` (the only `application_status` write in main.py:84-119 is at
main.py:114). -/
theorem ensure_start_phase_true (env : AppEnv) (key : String) (flag1 : Option String)
    (tr0 : List UpCall) (h : (ensure_start_phase env key flag1 tr0).1 = true) :
    (ensure_start_phase env key flag1 tr0).2.1 = some "active" := by
  by_cases hg : goodHttp (env.startResp key) = true
  · rcases hout : (app_poll_run env key).1 with e | data
    · simp [ensure_start_phase, hg, hout] at h
    · by_cases ha : statusIs data "active" = true
      · simp [ensure_start_phase, hg, hout, ha]
      · rw [Bool.not_eq_true] at ha
        simp [ensure_start_phase, hg, hout, ha] at h
  · rw [Bool.not_eq_true] at hg
    simp [ensure_start_phase, hg] at h

/-- If the start-and-poll phase reports failure, it leaves the flag exactly as
it received it. -/
theorem ensure_start_phase_false (env : AppEnv) (key : String) (flag1 : Option String)
    (tr0 : List UpCall) (h : (ensure_start_phase env key flag1 tr0).1 = false) :
    (ensure_start_phase env key flag1 tr0).2.1 = flag1 := by
  by_cases hg : goodHttp (env.startResp key) = true
  · rcases hout : (app_poll_run env key).1 with e | data
    · simp [ensure_start_phase, hg, hout]
    · by_cases ha : statusIs data "active" = true
      · simp [ensure_start_phase, hg, hout, ha] at h
      · rw [Bool.not_eq_true] at ha
        simp [ensure_start_phase, hg, hout, ha]
  · rw [Bool.not_eq_true] at hg
    simp [ensure_start_phase, hg]

/-- The flag after the start-and-poll phase: either unchanged, or set to
`some "active"` right after the loop ended on a body reporting `"active"`. -/
theorem ensure_start_phase_flag (env : AppEnv) (key : String) (flag1 : Option String)
    (tr0 : List UpCall) :
    (ensure_start_phase env key flag1 tr0).2.1 = flag1 ∨
    ((ensure_start_phase env key flag1 tr0).2.1 = some "active" ∧
      ∃ d, (app_poll_run env key).1 = .ok d ∧ statusIs d "active" = true) := by
  by_cases hg : goodHttp (env.startResp key) = true
  · rcases hout : (app_poll_run env key).1 with e | data
    · exact Or.inl (by simp [ensure_start_phase, hg, hout])
    · by_cases ha : statusIs data "active" = true
      · exact Or.inr ⟨by simp [ensure_start_phase, hg, hout, ha], data, rfl, ha⟩
      · rw [Bool.not_eq_true] at ha
        exact Or.inl (by simp [ensure_start_phase, hg, hout, ha])
  · rw [Bool.not_eq_true] at hg
    exact Or.inl (by simp [ensure_start_phase, hg])

/-- When the polling loop aborts on a failing poll, the phase reports
failure. -/
theorem ensure_start_phase_error (env : AppEnv) (key : String) (flag1 : Option String)
    (tr0 : List UpCall) (hg : goodHttp (env.startResp key) = true) (e : Unit)
    (he : (app_poll_run env key).1 = .error e) :
    (ensure_start_phase env key flag1 tr0).1 = false := by
  simp [ensure_start_phase, hg, he]

/-- Unless the cached-flag confirmation short-circuits, a call is the
start-and-poll phase, with the flag already reset when the confirmation was
attempted and failed. -/
theorem ensure_eq_phase (env : AppEnv) (key : String) (flag0 : Option String)
    (hreach : ¬(flag0 = some "active" ∧ statusIs (env.confirmResp key).json "active" = true)) :
    ensure_application_running env key flag0
      = ensure_start_phase env key (if flag0 = some "active" then none else flag0)
          (if flag0 = some "active" then [UpCall.confirmGet key] else []) := by
  by_cases hf : flag0 = some "active"
  · have hc : statusIs (env.confirmResp key).json "active" = false := by
      rw [← Bool.not_eq_true]
      exact fun h => hreach ⟨hf, h⟩
    simp [ensure_application_running, hf, hc]
  · simp [ensure_application_running, hf]

/-- Each call leaves the flag in {`None`, `"active"`} when it found it
there. -/
theorem ensure_flag_values (env : AppEnv) (key : String) (flag0 : Option String)
    (h0 : flag0 = none ∨ flag0 = some "active") :
    (ensure_application_running env key flag0).2.1 = none ∨
    (ensure_application_running env key flag0).2.1 = some "active" := by
  by_cases hf : flag0 = some "active"
  · by_cases hc : statusIs (env.confirmResp key).json "active" = true
    · right
      simp [ensure_application_running, hf, hc]
    · rw [Bool.not_eq_true] at hc
      have heq : ensure_application_running env key flag0
          = ensure_start_phase env key none [UpCall.confirmGet key] := by
        simp [ensure_application_running, hf, hc]
      rw [heq]
      rcases ensure_start_phase_flag env key none [UpCall.confirmGet key] with h | ⟨h, _⟩
      · exact Or.inl h
      · exact Or.inr h
  · have h0' : flag0 = none := h0.resolve_right hf
    subst h0'
    have heq : ensure_application_running env key none
        = ensure_start_phase env key none [] := by
      simp [ensure_application_running]
    rw [heq]
    rcases ensure_start_phase_flag env key none [] with h | ⟨h, _⟩
    · exact Or.inl h
    · exact Or.inr h

/-- From the initial `None`, any sequence of calls keeps the flag in
{`None`, `"active"`}. -/
theorem run_calls_inv :
    ∀ (calls : List (AppEnv × String)) (f : Option String),
      f = none ∨ f = some "active" →
      run_calls calls f = none ∨ run_calls calls f = some "active"
  | [], _, hf => hf
  | c :: cs, f, hf => run_calls_inv cs _ (ensure_flag_values c.1 c.2 f hf)

/-- C4: the readiness flag only ever holds `None` ("unknown") or `"active"`;
a call sets it to `"active"` only immediately after an upstream body — the
confirmation GET's, the start POST's or an in-loop poll's — reported
`"active"`; and when the confirmation check made while the flag was
`"active"` observes anything else, a failing call leaves the flag `None`
rather than the stale `"active"`.  From the initial `None`, any sequence of
calls keeps the flag in {`None`, `"active"`}. -/
theorem readiness_flag_sound (env : AppEnv) (key : String) (flag0 : Option String)
    (h0 : flag0 = none ∨ flag0 = some "active") :
    ((ensure_application_running env key flag0).2.1 = none ∨
      (ensure_application_running env key flag0).2.1 = some "active") ∧
    ((ensure_application_running env key flag0).2.1 = some "active" →
      (flag0 = some "active" ∧ statusIs (env.confirmResp key).json "active" = true) ∨
      (∃ d, (app_poll_run env key).1 = .ok d ∧ statusIs d "active" = true ∧
        (d = (env.startResp key).json ∨ ∃ k, 1 ≤ k ∧ d = (env.pollResp key k).json))) ∧
    (flag0 = some "active" → statusIs (env.confirmResp key).json "active" = false →
      (ensure_application_running env key flag0).1 = false →
      (ensure_application_running env key flag0).2.1 = none) ∧
    (∀ calls : List (AppEnv × String),
      run_calls calls application_status_init = none ∨
      run_calls calls application_status_init = some "active") := by
  refine ⟨ensure_flag_values env key flag0 h0, ?_, ?_,
    fun calls => run_calls_inv calls _ (Or.inl rfl)⟩
  · intro hact
    by_cases hf : flag0 = some "active"
    · by_cases hc : statusIs (env.confirmResp key).json "active" = true
      · exact Or.inl ⟨hf, hc⟩
      · rw [Bool.not_eq_true] at hc
        have heq : ensure_application_running env key flag0
            = ensure_start_phase env key none [UpCall.confirmGet key] := by
          simp [ensure_application_running, hf, hc]
        rw [heq] at hact
        rcases ensure_start_phase_flag env key none [UpCall.confirmGet key]
          with h | ⟨_, d, hok, ha⟩
        · rw [hact] at h
          cases h
        · refine Or.inr ⟨d, hok, ha, ?_⟩
          rcases appPollLoop_ok_src env key (APPLICATION_START_TIMEOUT / 5)
            (env.startResp key).json 1 d hok with h | ⟨k, hk, h⟩
          · exact Or.inl h
          · exact Or.inr ⟨k, hk, h⟩
    · have h0' : flag0 = none := h0.resolve_right hf
      subst h0'
      have heq : ensure_application_running env key none
          = ensure_start_phase env key none [] := by
        simp [ensure_application_running]
      rw [heq] at hact
      rcases ensure_start_phase_flag env key none [] with h | ⟨_, d, hok, ha⟩
      · rw [hact] at h
        cases h
      · refine Or.inr ⟨d, hok, ha, ?_⟩
        rcases appPollLoop_ok_src env key (APPLICATION_START_TIMEOUT / 5)
          (env.startResp key).json 1 d hok with h | ⟨k, hk, h⟩
        · exact Or.inl h
        · exact Or.inr ⟨k, hk, h⟩
  · intro hf hc hfalse
    have heq : ensure_application_running env key flag0
        = ensure_start_phase env key none [UpCall.confirmGet key] := by
      simp [ensure_application_running, hf, hc]
    rw [heq] at hfalse ⊢
    exact ensure_start_phase_false env key none _ hfalse

/-- C4 (witness): the flag facts instantiated at a concrete call from the
initial `None` against an always-active upstream. -/
theorem readiness_flag_sound_witness :
    ((none : Option String) = none ∨ (none : Option String) = some "active") ∧
    (((ensure_application_running exActiveAppEnv "k" none).2.1 = none ∨
        (ensure_application_running exActiveAppEnv "k" none).2.1 = some "active") ∧
      ((ensure_application_running exActiveAppEnv "k" none).2.1 = some "active" →
        ((none : Option String) = some "active" ∧
          statusIs (exActiveAppEnv.confirmResp "k").json "active" = true) ∨
        (∃ d, (app_poll_run exActiveAppEnv "k").1 = .ok d ∧ statusIs d "active" = true ∧
          (d = (exActiveAppEnv.startResp "k").json ∨
            ∃ j, 1 ≤ j ∧ d = (exActiveAppEnv.pollResp "k" j).json))) ∧
      ((none : Option String) = some "active" →
        statusIs (exActiveAppEnv.confirmResp "k").json "active" = false →
        (ensure_application_running exActiveAppEnv "k" none).1 = false →
        (ensure_application_running exActiveAppEnv "k" none).2.1 = none) ∧
      (∀ calls : List (AppEnv × String),
        run_calls calls application_status_init = none ∨
        run_calls calls application_status_init = some "active")) :=
  ⟨Or.inl rfl, readiness_flag_sound exActiveAppEnv "k" none (Or.inl rfl)⟩

/-- A call that returns `true` always leaves the flag `"active"`: either the
confirmation short-circuit kept the `"active"` it found, or main.py:114 just
wrote `"active"`. -/
theorem ensure_true_flag (env : AppEnv) (key : String) (flag0 : Option String)
    (h : (ensure_application_running env key flag0).1 = true) :
    (ensure_application_running env key flag0).2.1 = some "active" := by
  by_cases hf : flag0 = some "active"
  · by_cases hc : statusIs (env.confirmResp key).json "active" = true
    · simp [ensure_application_running, hf, hc]
    · rw [Bool.not_eq_true] at hc
      have heq : ensure_application_running env key flag0
          = ensure_start_phase env key none [UpCall.confirmGet key] := by
        simp [ensure_application_running, hf, hc]
      rw [heq] at h ⊢
      exact ensure_start_phase_true env key none _ h
  · have heq : ensure_application_running env key flag0
        = ensure_start_phase env key flag0 [] := by
      simp [ensure_application_running, hf]
    rw [heq] at h ⊢
    exact ensure_start_phase_true env key flag0 [] h

/-- C5: the readiness flag is not partitioned by credential.  After any call
with credential A succeeds — leaving the shared flag `"active"` — a call with
any credential B whose confirmation GET reports `"active"` issues exactly
that one GET, makes no start POST, and returns `true`. -/
theorem readiness_flag_shared (env1 env2 : AppEnv) (credA credB : String)
    (flag0 : Option String)
    (h1 : (ensure_application_running env1 credA flag0).1 = true)
    (h2 : statusIs ((env2.confirmResp credB).json) "active" = true) :
    ensure_application_running env2 credB (ensure_application_running env1 credA flag0).2.1
      = (true, some "active", [UpCall.confirmGet credB]) := by
  rw [ensure_true_flag env1 credA flag0 h1]
  simp [ensure_application_running, h2]

/-- C5 (witness): credential "keyB" piggybacks on the flag left by "keyA". -/
theorem readiness_flag_shared_witness :
    (ensure_application_running exActiveAppEnv "keyA" none).1 = true ∧
    statusIs ((exActiveAppEnv.confirmResp "keyB").json) "active" = true ∧
    ensure_application_running exActiveAppEnv "keyB"
        (ensure_application_running exActiveAppEnv "keyA" none).2.1
      = (true, some "active", [UpCall.confirmGet "keyB"]) :=
  ⟨rfl, rfl, readiness_flag_shared exActiveAppEnv exActiveAppEnv "keyA" "keyB" none rfl rfl⟩

/-- C9: a call that reaches the polling phase issues at most 300 // 5 = 60
status GETs; none at all when the start POST's body already reported
`"active"`; every poll that was re-polled after answered 200/201 with a
non-`"active"` body (so the loop stops at the first `"active"` or failing
poll); on an `.ok` exit every issued poll answered 200/201; and a poll
answering outside {200, 201} is the last one issued, after which the call
returns `false` at once. -/
theorem app_polling_bounded (env : AppEnv) (key : String) (flag0 : Option String)
    (hreach : ¬(flag0 = some "active" ∧ statusIs (env.confirmResp key).json "active" = true))
    (hstart : goodHttp (env.startResp key) = true) :
    (app_poll_run env key).2 ≤ 60 ∧
    (statusIs (env.startResp key).json "active" = true → (app_poll_run env key).2 = 0) ∧
    (∀ k, 1 ≤ k → k + 1 ≤ (app_poll_run env key).2 →
      goodHttp (env.pollResp key k) = true ∧
      statusIs (env.pollResp key k).json "active" = false) ∧
    (∀ d, (app_poll_run env key).1 = .ok d →
      ∀ k, 1 ≤ k → k ≤ (app_poll_run env key).2 → goodHttp (env.pollResp key k) = true) ∧
    (∀ e, (app_poll_run env key).1 = .error e →
      1 ≤ (app_poll_run env key).2 ∧
      goodHttp (env.pollResp key ((app_poll_run env key).2)) = false ∧
      (ensure_application_running env key flag0).1 = false) := by
  have hrun : app_poll_run env key
      = appPollLoop env key (env.startResp key).json 1 (APPLICATION_START_TIMEOUT / 5) := rfl
  have h60 : APPLICATION_START_TIMEOUT / 5 = 60 := rfl
  refine ⟨?_, ?_, ?_, ?_, ?_⟩
  · rw [hrun]
    exact h60 ▸ appPollLoop_count_le env key (APPLICATION_START_TIMEOUT / 5)
      (env.startResp key).json 1
  · intro h
    rw [hrun, appPollLoop_exit_active env key (env.startResp key).json 1
      (APPLICATION_START_TIMEOUT / 5) h]
  · intro k h1 h2
    rw [hrun] at h2
    exact appPollLoop_mid env key (APPLICATION_START_TIMEOUT / 5)
      (env.startResp key).json 1 k h1 (by omega)
  · intro d hd k h1 h2
    rw [hrun] at hd h2
    exact appPollLoop_ok_good env key (APPLICATION_START_TIMEOUT / 5)
      (env.startResp key).json 1 d hd k h1 (by omega)
  · intro e he
    rw [hrun] at he
    obtain ⟨hn, hbad⟩ := appPollLoop_error_last env key (APPLICATION_START_TIMEOUT / 5)
      (env.startResp key).json 1 e he
    refine ⟨by rw [hrun]; exact hn, ?_, ?_⟩
    · rw [hrun]
      have hidx : 1 + (appPollLoop env key (env.startResp key).json 1
            (APPLICATION_START_TIMEOUT / 5)).2 - 1
          = (appPollLoop env key (env.startResp key).json 1
            (APPLICATION_START_TIMEOUT / 5)).2 := by
        omega
      rw [← hidx]
      exact hbad
    · rw [ensure_eq_phase env key flag0 hreach]
      exact ensure_start_phase_error env key _ _ hstart e he

/-- C9 (witness): from a cold flag against an upstream that answers the start
POST with `"pending"` and the first poll with `"active"`, the polling facts
hold; here exactly one poll is issued. -/
theorem app_polling_bounded_witness :
    (¬((none : Option String) = some "active" ∧
        statusIs (exStartsOnPollEnv.confirmResp "k").json "active" = true)) ∧
    goodHttp (exStartsOnPollEnv.startResp "k") = true ∧
    ((app_poll_run exStartsOnPollEnv "k").2 ≤ 60 ∧
      (statusIs (exStartsOnPollEnv.startResp "k").json "active" = true →
        (app_poll_run exStartsOnPollEnv "k").2 = 0) ∧
      (∀ k, 1 ≤ k → k + 1 ≤ (app_poll_run exStartsOnPollEnv "k").2 →
        goodHttp (exStartsOnPollEnv.pollResp "k" k) = true ∧
        statusIs (exStartsOnPollEnv.pollResp "k" k).json "active" = false) ∧
      (∀ d, (app_poll_run exStartsOnPollEnv "k").1 = .ok d →
        ∀ k, 1 ≤ k → k ≤ (app_poll_run exStartsOnPollEnv "k").2 →
        goodHttp (exStartsOnPollEnv.pollResp "k" k) = true) ∧
      (∀ e, (app_poll_run exStartsOnPollEnv "k").1 = .error e →
        1 ≤ (app_poll_run exStartsOnPollEnv "k").2 ∧
        goodHttp (exStartsOnPollEnv.pollResp "k" ((app_poll_run exStartsOnPollEnv "k").2)) = false ∧
        (ensure_application_running exStartsOnPollEnv "k" none).1 = false)) :=
  ⟨by simp, rfl, app_polling_bounded exStartsOnPollEnv "k" none (by simp) rfl⟩

/-- C2: once `execute_query` has fetched the results descriptor successfully,
it returns the error `"Failed to process parquet file"` exactly when the
download/decode yields no table; every decoded table — a zero-row table
included — is returned as a success `(df, None)`, never as an error; and the
results route serialises a zero-row success as `data: []`. -/
theorem empty_table_is_success (env : ExecEnv) (d : Dict)
    (hpost : goodHttp env.postResp = true)
    (hloop : execPollLoop env (env.statusResp 0).json 1 (QUERY_EXECUTION_TIMEOUT / 2) = .ok d)
    (hdone : statusIs d "complete" = true)
    (hres : goodHttp env.resultsResp = true) :
    (execute_query env = (none, some (.str "Failed to process parquet file")) ↔
      process_parquet_in_memory env (jget env.resultsResp.json "presigned_url") = none) ∧
    (∀ t, process_parquet_in_memory env (jget env.resultsResp.json "presigned_url") = some t →
      execute_query env = (some t, none)) ∧
    (process_parquet_in_memory env (jget env.resultsResp.json "presigned_url") = some [] →
      execute_query env = (some [], none) ∧ df_to_json_records [] = Json.arr []) ∧
    (∀ appEnv key slug flag0, (ensure_application_running appEnv key flag0).1 = true →
      process_parquet_in_memory env (jget env.resultsResp.json "presigned_url") = some [] →
      execute_query_endpoint appEnv env key slug none flag0
        = ((200, [("query_slug", .str slug), ("page", .num 1), ("data", Json.arr [])]),
            (ensure_application_running appEnv key flag0).2.1)) := by
  have hfail := statusIs_complete_not_failed d hdone
  have hq : execute_query env = get_results_phase env := by
    simp [execute_query, hpost, hloop, hfail, hdone]
  cases hp : process_parquet_in_memory env (jget env.resultsResp.json "presigned_url") with
  | none =>
    have hqq : execute_query env = (none, some (.str "Failed to process parquet file")) := by
      rw [hq]
      simp [get_results_phase, hres, hp]
    refine ⟨by simp [hqq], ?_, ?_, ?_⟩
    · intro t ht
      exact absurd ht (by simp)
    · intro ht
      exact absurd ht (by simp)
    · intro appEnv key slug flag0 hens ht
      exact absurd ht (by simp)
  | some t =>
    have hqq : execute_query env = (some t, none) := by
      rw [hq]
      simp [get_results_phase, hres, hp]
    refine ⟨by rw [hqq]; simp, ?_, ?_, ?_⟩
    · intro t' ht'
      injection ht' with h
      subst h
      exact hqq
    · intro ht
      injection ht with h
      subst h
      exact ⟨hqq, rfl⟩
    · intro appEnv key slug flag0 hens ht
      injection ht with h
      subst h
      simp [execute_query_endpoint, parse_page_number, hens, hqq, df_to_json_records]

/-- C2 (witness): a concrete completed execution whose parquet file decodes
to zero rows is a success and the route answers 200 with `data: []`. -/
theorem empty_table_is_success_witness :
    goodHttp exEmptyResultEnv.postResp = true ∧
    execPollLoop exEmptyResultEnv (exEmptyResultEnv.statusResp 0).json 1
        (QUERY_EXECUTION_TIMEOUT / 2) = .ok [("status", Json.str "complete")] ∧
    statusIs [("status", Json.str "complete")] "complete" = true ∧
    goodHttp exEmptyResultEnv.resultsResp = true ∧
    ((execute_query exEmptyResultEnv = (none, some (.str "Failed to process parquet file")) ↔
        process_parquet_in_memory exEmptyResultEnv
          (jget exEmptyResultEnv.resultsResp.json "presigned_url") = none) ∧
      (∀ t, process_parquet_in_memory exEmptyResultEnv
          (jget exEmptyResultEnv.resultsResp.json "presigned_url") = some t →
        execute_query exEmptyResultEnv = (some t, none)) ∧
      (process_parquet_in_memory exEmptyResultEnv
          (jget exEmptyResultEnv.resultsResp.json "presigned_url") = some [] →
        execute_query exEmptyResultEnv = (some [], none) ∧
        df_to_json_records [] = Json.arr []) ∧
      (∀ appEnv key slug flag0, (ensure_application_running appEnv key flag0).1 = true →
        process_parquet_in_memory exEmptyResultEnv
          (jget exEmptyResultEnv.resultsResp.json "presigned_url") = some [] →
        execute_query_endpoint appEnv exEmptyResultEnv key slug none flag0
          = ((200, [("query_slug", .str slug), ("page", .num 1), ("data", Json.arr [])]),
              (ensure_application_running appEnv key flag0).2.1))) :=
  ⟨rfl, rfl, rfl, rfl,
    empty_table_is_success exEmptyResultEnv [("status", Json.str "complete")] rfl rfl rfl rfl⟩

/-- C6 (counterexample): with the creation POST refused (503, upstream
`detail` present), `create_query` returns `None` carrying no message at all,
and the route's 500 body says exactly `"Failed to create query"` — a fixed
string that does not mention the status code (it contains no digit) and is
not the generic status-code message. -/
theorem create_error_message_cx :
    create_query exCreateBadEnv (.str "SELECT 1") "k" = none ∧
    create_query_endpoint exActiveAppEnv exCreateBadEnv "k"
        (some [("sql_query", .str "SELECT 1")]) (some "active")
      = ((500, [("error", .str "Failed to create query")]), some "active",
          [UpCall.confirmGet "k", UpCall.createQueryPost "k" (.str "SELECT 1")]) ∧
    "Failed to create query" ≠ "Request failed with status code 503" ∧
    "Failed to create query".data.contains '5' = false :=
  ⟨rfl, rfl, by decide, by decide⟩

/-- C6 (amended): when the creation POST returns a status outside {200, 201},
`create_query` returns no slug and carries no per-call error message (the
status code appears only in a server-side log line, main.py:286); the wrapper
replaces the missing slug with the fixed message `"Failed to create query"`,
and the route surfaces that failure as a 500 error body with exactly that
message — upstream detail is not extracted for this call. -/
theorem create_error_message_amended (appEnv : AppEnv) (createEnv : CreateEnv)
    (key : String) (flag0 : Option String) (d : Dict) (v : Json)
    (hbad : goodHttp (createEnv.createResp key v) = false)
    (hens : (ensure_application_running appEnv key flag0).1 = true)
    (hsql : jget d "sql_query" = some v) (htr : v.truthy = true)
    (hnod : (["layer", "table", "limit"].filter (fun p => (jget d p).isSome)).isEmpty = true) :
    create_query createEnv v key = none ∧
    create_query_and_return_slug appEnv createEnv v key flag0
      = ((none, some "Failed to create query"),
          (ensure_application_running appEnv key flag0).2.1,
          (ensure_application_running appEnv key flag0).2.2
            ++ [UpCall.createQueryPost key v]) ∧
    (create_query_endpoint appEnv createEnv key (some d) flag0).1
      = (500, [("error", .str "Failed to create query")]) := by
  have hcq : create_query createEnv v key = none := by
    simp [create_query, hbad]
  have hw : create_query_and_return_slug appEnv createEnv v key flag0
      = ((none, some "Failed to create query"),
          (ensure_application_running appEnv key flag0).2.1,
          (ensure_application_running appEnv key flag0).2.2
            ++ [UpCall.createQueryPost key v]) := by
    simp [create_query_and_return_slug, hens, hcq]
  refine ⟨hcq, hw, ?_⟩
  have hd : d.isEmpty = false := by
    cases d with
    | nil => simp [jget] at hsql
    | cons a l => rfl
  simp [create_query_endpoint, hd, hsql, htr, hnod, create_endpoint_finish, hw, optStrJson]

/-- C6 (witness): the amended facts at a concrete refused creation POST. -/
theorem create_error_message_amended_witness :
    goodHttp (exCreateBadEnv.createResp "k" (.str "SELECT 1")) = false ∧
    (ensure_application_running exActiveAppEnv "k" none).1 = true ∧
    jget [("sql_query", Json.str "SELECT 1")] "sql_query" = some (.str "SELECT 1") ∧
    (Json.str "SELECT 1").truthy = true ∧
    (["layer", "table", "limit"].filter
      (fun p => (jget [("sql_query", Json.str "SELECT 1")] p).isSome)).isEmpty = true ∧
    (create_query exCreateBadEnv (.str "SELECT 1") "k" = none ∧
      create_query_and_return_slug exActiveAppEnv exCreateBadEnv (.str "SELECT 1") "k" none
        = ((none, some "Failed to create query"),
            (ensure_application_running exActiveAppEnv "k" none).2.1,
            (ensure_application_running exActiveAppEnv "k" none).2.2
              ++ [UpCall.createQueryPost "k" (.str "SELECT 1")]) ∧
      (create_query_endpoint exActiveAppEnv exCreateBadEnv "k"
          (some [("sql_query", Json.str "SELECT 1")]) none).1
        = (500, [("error", .str "Failed to create query")])) :=
  ⟨rfl, rfl, rfl, rfl, rfl,
    create_error_message_amended exActiveAppEnv exCreateBadEnv "k" none
      [("sql_query", Json.str "SELECT 1")] (.str "SELECT 1") rfl rfl rfl rfl rfl⟩

/-- C8 (counterexample): the body with `sql_query` set to the empty string
together with `layer` and `table` supplies `sql_query` alongside disallowed
parameters, yet the route does not answer 400 naming them: the falsy
`sql_query` sends it down the layer/table branch, upstream is contacted (the
trace is non-empty) and the answer is 200. -/
theorem sql_query_mode_cx :
    create_query_endpoint exActiveAppEnv exCreateGoodEnv "k"
        (some [("sql_query", .str ""), ("layer", .str "x"), ("table", .str "t")]) none
      = ((200, [("query_slug", .str "q-1"),
                ("sql_query", .str "SELECT\n\t*\nFROM\n\t\"x\".\"t\""),
                ("status", .str "success"),
                ("message", .str "Query created successfully")]),
          some "active",
          [UpCall.startPost "k",
           UpCall.createQueryPost "k" (.str "SELECT\n\t*\nFROM\n\t\"x\".\"t\"")]) ∧
    (create_query_endpoint exActiveAppEnv exCreateGoodEnv "k"
        (some [("sql_query", .str ""), ("layer", .str "x"), ("table", .str "t")]) none).1.1
      ≠ 400 ∧
    (create_query_endpoint exActiveAppEnv exCreateGoodEnv "k"
        (some [("sql_query", .str ""), ("layer", .str "x"), ("table", .str "t")]) none).2.2
      ≠ [] := by
  refine ⟨rfl, by decide, ?_⟩
  have he : (create_query_endpoint exActiveAppEnv exCreateGoodEnv "k"
        (some [("sql_query", .str ""), ("layer", .str "x"), ("table", .str "t")]) none).2.2
      = [UpCall.startPost "k",
         UpCall.createQueryPost "k" (.str "SELECT\n\t*\nFROM\n\t\"x\".\"t\"")] := rfl
  rw [he]
  simp

/-- C8 (amended): for every request body whose `sql_query` value is truthy
(e.g. a non-empty string), supplying any of `layer`, `table`, `limit` makes
the route answer 400 with the message naming exactly the supplied disallowed
parameters, and upstream is not contacted; a falsy `sql_query` (such as the
empty string) is instead treated as absent and the body is processed in
layer/table mode.  In particular the body with `sql_query` `"SELECT 1"` and
`layer` `"x"` is rejected with 400 naming `layer`. -/
theorem sql_query_mode_rejects_params (appEnv : AppEnv) (createEnv : CreateEnv)
    (key : String) (flag0 : Option String) (d : Dict) (v : Json)
    (hsql : jget d "sql_query" = some v) (htr : v.truthy = true)
    (hds : (["layer", "table", "limit"].filter (fun p => (jget d p).isSome)) ≠ []) :
    create_query_endpoint appEnv createEnv key (some d) flag0
      = ((400, errBody ("When 'sql_query' is provided, these parameters are not allowed: "
            ++ String.intercalate ", "
              (["layer", "table", "limit"].filter (fun p => (jget d p).isSome)))),
          flag0, []) ∧
    create_query_endpoint appEnv createEnv key
        (some [("sql_query", .str "SELECT 1"), ("layer", .str "x")]) flag0
      = ((400, errBody "When 'sql_query' is provided, these parameters are not allowed: layer"),
          flag0, []) := by
  constructor
  · have hd : d.isEmpty = false := by
      cases d with
      | nil => simp [jget] at hsql
      | cons a l => rfl
    have hde : (["layer", "table", "limit"].filter
        (fun p => (jget d p).isSome)).isEmpty = false := by
      cases hfl : ["layer", "table", "limit"].filter (fun p => (jget d p).isSome) with
      | nil => exact absurd hfl hds
      | cons a l => rfl
    simp [create_query_endpoint, hd, hsql, htr, hde]
  · rfl

/-- C8 (witness): the amended rejection at the concrete body with
`sql_query` `"SELECT 1"` and `layer` `"x"`. -/
theorem sql_query_mode_rejects_params_witness :
    jget [("sql_query", Json.str "SELECT 1"), ("layer", Json.str "x")] "sql_query"
      = some (.str "SELECT 1") ∧
    (Json.str "SELECT 1").truthy = true ∧
    (["layer", "table", "limit"].filter
      (fun p => (jget [("sql_query", Json.str "SELECT 1"), ("layer", Json.str "x")] p).isSome))
      ≠ [] ∧
    (create_query_endpoint exActiveAppEnv exCreateGoodEnv "k"
        (some [("sql_query", Json.str "SELECT 1"), ("layer", Json.str "x")]) none
      = ((400, errBody ("When 'sql_query' is provided, these parameters are not allowed: "
            ++ String.intercalate ", "
              (["layer", "table", "limit"].filter
                (fun p => (jget [("sql_query", Json.str "SELECT 1"),
                  ("layer", Json.str "x")] p).isSome)))),
          none, []) ∧
      create_query_endpoint exActiveAppEnv exCreateGoodEnv "k"
          (some [("sql_query", .str "SELECT 1"), ("layer", .str "x")]) none
        = ((400, errBody "When 'sql_query' is provided, these parameters are not allowed: layer"),
            none, [])) :=
  ⟨rfl, rfl, by decide, sql_query_mode_rejects_params exActiveAppEnv exCreateGoodEnv "k" none
      [("sql_query", Json.str "SELECT 1"), ("layer", Json.str "x")] (.str "SELECT 1")
      rfl rfl (by decide)⟩
